import Mathlib

/-! # Vehiql: listing pagination, filter URL state and wishlist toggle

A shallow embedding of the view-layer logic of

* `src/app/(main)/cars/_components/car-listing.jsx` (`CarListings`),
* `src/app/(main)/cars/_components/car-filters.jsx` (`CarFilters`),
* `src/app/(main)/cars/[id]/_components/car-details.jsx` (`CarDetails`).

JavaScript numbers that hold page numbers and prices are embedded as `Int`
(they come from `parseInt` and from integral catalog bounds); `NaN` is written
`none` where a parse can fail.  React state is embedded as explicit records and
every handler is a function from the values captured by the render that created
the handler to the state updates and navigations it requests.
-/

namespace Vehiql

/-! ## `CarListings`: the pagination window (car-listing.jsx, lines 135-191) -/

/-- The `for (let i = lo; i <= hi; i++) visiblePageNumbers.push(i)` loop of
`CarListings`: `fuel` bounds the number of iterations, `i` is the loop variable,
`acc` the array built so far. -/
def pushWindow : Nat → Int → Int → List Int → List Int
  | 0, _, _, acc => acc
  | fuel + 1, i, hi, acc =>
    if i ≤ hi then pushWindow fuel (i + 1) hi (acc ++ [i]) else acc

/-- The array `visiblePageNumbers` after lines 139-156: page 1, the window
around `page`, and the last page when `pages > 1`. -/
def visiblePageNumbers (pages page : Int) : List Int :=
  let lo := max 2 (page - 1)
  let hi := min (pages - 1) (page + 1)
  let afterLoop := pushWindow (hi + 1 - lo).toNat lo hi [1]
  if pages > 1 then afterLoop ++ [pages] else afterLoop

/-- The elements of `new Set(xs)` in iteration order: a JavaScript `Set` keeps
the first insertion of every value. -/
def newSet (xs : List Int) : List Int :=
  xs.foldl (fun seen x => if x ∈ seen then seen else seen ++ [x]) []

/-- The array `uniquePageNumbers`:
`[...new Set(visiblePageNumbers)].sort((a, b) => a - b)`. -/
def uniquePageNumbers (pages page : Int) : List Int :=
  (newSet (visiblePageNumbers pages page)).insertionSort (· ≤ ·)

/-- An element of `paginationItems`: an ellipsis (keyed by the page it
precedes) or a page link with its `isActive` flag. -/
inductive PaginationItem where
  | ellipsis (before : Int)
  | link (pageNumber : Int) (isActive : Bool)
  deriving DecidableEq, Repr

/-- One iteration of the `uniquePageNumbers.forEach` callback (lines 165-191);
the state is `(paginationItems, lastPageNumber)`. -/
def pushPaginationItem (page : Int) (st : List PaginationItem × Int) (pageNumber : Int) :
    List PaginationItem × Int :=
  let items := if pageNumber - st.2 > 1 then st.1 ++ [PaginationItem.ellipsis pageNumber] else st.1
  (items ++ [PaginationItem.link pageNumber (decide (pageNumber = page))], pageNumber)

/-- The array `paginationItems` after the `forEach`, started from
`paginationItems = []` and `lastPageNumber = 0`. -/
def paginationItems (pages page : Int) : List PaginationItem :=
  ((uniquePageNumbers pages page).foldl (pushPaginationItem page) ([], 0)).1

/-- The rendering the specification describes for a list of visible pages:
`prev` is the previous visible page (`none` before the first one); an ellipsis
is put before `p` exactly when `p` exceeds the previous visible page by more
than one, and never before the first page. -/
def ellipsisSpec (page : Int) : Option Int → List Int → List PaginationItem
  | _, [] => []
  | none, p :: rest =>
    PaginationItem.link p (decide (p = page)) :: ellipsisSpec page (some p) rest
  | some q, p :: rest =>
    if p - q > 1 then
      PaginationItem.ellipsis p :: PaginationItem.link p (decide (p = page)) ::
        ellipsisSpec page (some p) rest
    else PaginationItem.link p (decide (p = page)) :: ellipsisSpec page (some p) rest

/-! ## `URLSearchParams`, numbers and URLs

`URLSearchParams` is embedded as the ordered list of name/value pairs it holds.
Its `toString()` and the parsing done by `useSearchParams` are platform
primitives that encode and decode exactly that list, so a URL is embedded as a
pathname with or without a query list. -/

/-- The ordered name/value list held by a `URLSearchParams` object. -/
abbrev URLSearchParams := List (String × String)

/-- The method `URLSearchParams.prototype.get`: the value of the first pair
called `name`, `none` (JavaScript `null`) when there is none. -/
def URLSearchParams.get (ps : URLSearchParams) (name : String) : Option String :=
  match ps with
  | [] => none
  | kv :: rest => if kv.1 = name then some kv.2 else URLSearchParams.get rest name

/-- Replace the value of the first pair called `name` and remove the other
pairs of that name. -/
def replaceFirst (name value : String) : List (String × String) → List (String × String)
  | [] => []
  | kv :: rest =>
    if kv.1 = name then (name, value) :: rest.filter (fun p => decide (p.1 ≠ name))
    else kv :: replaceFirst name value rest

/-- The method `URLSearchParams.prototype.set`: overwrite the first pair called
`name` (dropping the others), or append a new pair. -/
def URLSearchParams.set (ps : URLSearchParams) (name value : String) : URLSearchParams :=
  if ps.any (fun p => decide (p.1 = name)) then replaceFirst name value ps
  else ps ++ [(name, value)]

/-- JavaScript truthiness of a `string | null`: `null` and `""` are falsy. -/
def truthy : Option String → Bool
  | none => false
  | some s => decide (s ≠ "")

/-- The expression `x || fallback` for `x : string | null`. -/
def orDefault (x : Option String) (fallback : String) : String :=
  match x with
  | some s => if s ≠ "" then s else fallback
  | none => fallback

/-- A JavaScript number holding an integer, or `NaN` (`none`).  The integers
meant are those JavaScript represents exactly and prints in plain decimal
notation (prices and page numbers). -/
abbrev JsNumber := Option Int

/-- `Number.prototype.toString` on `NaN` or on a safe integer
(`isSafeInteger` below), which JavaScript prints in plain decimal.  Larger
magnitudes, which JavaScript rounds above `2^53` and prints in exponent notation
from `1e21` (`"1e+21"`), are outside this embedding: nothing is claimed about
the string printed for them. -/
def numberToString : JsNumber → String
  | none => "NaN"
  | some (Int.ofNat n) => String.mk (Nat.toDigits 10 n)
  | some (Int.negSucc n) => String.mk ('-' :: Nat.toDigits 10 (n + 1))

/-- `Number.isSafeInteger` on an integer: its magnitude is at most
`Number.MAX_SAFE_INTEGER = 2^53 - 1 = 9007199254740991`.  On these JavaScript
arithmetic, `toString` and `parseInt` are exact. -/
def isSafeInteger (n : Int) : Bool := decide (n.natAbs ≤ 9007199254740991)

/-- The characters `parseInt` skips at the start of its input (ECMAScript
`WhiteSpace` and `LineTerminator`). -/
def isStrWhiteSpace (c : Char) : Bool :=
  let n := c.toNat
  n = 9 || n = 10 || n = 11 || n = 12 || n = 13 || n = 32 || n = 160 || n = 5760 ||
    (8192 ≤ n && n ≤ 8202) || n = 8232 || n = 8233 || n = 8239 || n = 8287 ||
    n = 12288 || n = 65279

/-- The value of a character as a digit (`0-9`, `a-z`, `A-Z`), if it is one. -/
def digitValue (c : Char) : Option Nat :=
  let n := c.toNat
  if 48 ≤ n ∧ n ≤ 57 then some (n - 48)
  else if 97 ≤ n ∧ n ≤ 122 then some (n - 87)
  else if 65 ≤ n ∧ n ≤ 90 then some (n - 55)
  else none

/-- The values of the longest prefix of `cs` made of radix-`radix` digits. -/
def takeDigits (radix : Nat) : List Char → List Nat
  | [] => []
  | c :: cs =>
    match digitValue c with
    | some d => if d < radix then d :: takeDigits radix cs else []
    | none => []

/-- The sign step of `parseInt`: a leading `-` or `+` is removed. -/
def stripSign : List Char → Bool × List Char
  | [] => (false, [])
  | c :: cs =>
    if c = '-' then (true, cs) else if c = '+' then (false, cs) else (false, c :: cs)

/-- The radix step of `parseInt` called without a radix: a leading `0x` or `0X`
selects radix 16, anything else radix 10. -/
def stripHexPrefix : List Char → Nat × List Char
  | c :: d :: cs =>
    if c = '0' ∧ (d = 'x' ∨ d = 'X') then (16, cs) else (10, c :: d :: cs)
  | cs => (10, cs)

/-- The global `parseInt(string)` without a radix argument; `none` is `NaN`. -/
def parseInt (s : String) : JsNumber :=
  let signed := stripSign (s.data.dropWhile isStrWhiteSpace)
  let prefixed := stripHexPrefix signed.2
  let ds := takeDigits prefixed.1 prefixed.2
  if ds = [] then none
  else
    let n : Int := (ds.foldl (fun a d => a * prefixed.1 + d) 0 : Nat)
    some (if signed.1 then -n else n)

/-- The comparison `a > b` of a number with an integer; false on `NaN`. -/
def jsGt (a : JsNumber) (b : Int) : Bool :=
  match a with
  | some x => decide (x > b)
  | none => false

/-- The comparison `a < b` of a number with an integer; false on `NaN`. -/
def jsLt (a : JsNumber) (b : Int) : Bool :=
  match a with
  | some x => decide (x < b)
  | none => false

/-- The argument of `router.push`: the bare pathname, or the pathname followed
by `?` and a non-empty query. -/
inductive Url where
  | path (pathname : String)
  | pathQuery (pathname : String) (query : URLSearchParams)
  deriving DecidableEq, Repr

/-- The search parameters `useSearchParams()` yields once the router is at the
given URL. -/
def Url.searchParams : Url → URLSearchParams
  | Url.path _ => []
  | Url.pathQuery _ query => query

/-- The expression ``query ? `${pathname}?${query}` : pathname`` with
`query = params.toString()`, which is the empty string exactly when `params`
holds no pair. -/
def buildUrl (pathname : String) (params : URLSearchParams) : Url :=
  if params = [] then Url.path pathname else Url.pathQuery pathname params

/-! ## `CarFilters` (car-filters.jsx) -/

/-- The prop `filters.priceRange`: the catalog's price bounds. -/
structure PriceRange where
  min : Int
  max : Int
  deriving DecidableEq, Repr

/-- The six filter values of `CarFilters`: the `current*` constants parsed from
the URL and, with the same shape, the local draft state
`make, bodyType, fuelType, transmission, priceRange, sortBy`. -/
structure FilterValues where
  make : String
  bodyType : String
  fuelType : String
  transmission : String
  priceRange : JsNumber × JsNumber
  sortBy : String
  deriving DecidableEq, Repr

/-- The constants `currentMake … currentSortBy` (lines 31-42): the filter values
parsed from the URL, absent parameters read as their defaults. -/
def currentValues (priceRange : PriceRange) (searchParams : URLSearchParams) : FilterValues :=
  { make := orDefault (searchParams.get "make") ""
    bodyType := orDefault (searchParams.get "bodyType") ""
    fuelType := orDefault (searchParams.get "fuelType") ""
    transmission := orDefault (searchParams.get "transmission") ""
    priceRange :=
      (if truthy (searchParams.get "minPrice") then
          parseInt ((searchParams.get "minPrice").getD "")
        else some priceRange.min,
       if truthy (searchParams.get "maxPrice") then
          parseInt ((searchParams.get "maxPrice").getD "")
        else some priceRange.max)
    sortBy := orDefault (searchParams.get "sortBy") "newest" }

/-- What one render of `CarFilters` binds and its handlers close over: the
props and hooks (`filters.priceRange`, `pathname`, `searchParams`) and the local
state of that render. -/
structure FiltersRender where
  priceRange : PriceRange
  pathname : String
  searchParams : URLSearchParams
  draft : FilterValues
  isSheetOpen : Bool
  deriving DecidableEq, Repr

/-- What a handler of `CarFilters` requests: the local state after its
`set…` calls and the URLs passed to `router.push`, in order. -/
structure FiltersOutcome where
  draft : FilterValues
  isSheetOpen : Bool
  pushed : List Url
  deriving DecidableEq, Repr

/-- The `URLSearchParams` built by `applyFilters` (lines 144-160). -/
def applyFiltersParams (r : FiltersRender) : URLSearchParams :=
  let params : URLSearchParams := []
  let params := if r.draft.make ≠ "" then params.set "make" r.draft.make else params
  let params := if r.draft.bodyType ≠ "" then params.set "bodyType" r.draft.bodyType else params
  let params := if r.draft.fuelType ≠ "" then params.set "fuelType" r.draft.fuelType else params
  let params :=
    if r.draft.transmission ≠ "" then params.set "transmission" r.draft.transmission else params
  let params :=
    if jsGt r.draft.priceRange.1 r.priceRange.min then
      params.set "minPrice" (numberToString r.draft.priceRange.1)
    else params
  let params :=
    if jsLt r.draft.priceRange.2 r.priceRange.max then
      params.set "maxPrice" (numberToString r.draft.priceRange.2)
    else params
  let params := if r.draft.sortBy ≠ "newest" then params.set "sortBy" r.draft.sortBy else params
  let search := r.searchParams.get "search"
  let page := r.searchParams.get "page"
  let params := if truthy search then params.set "search" (search.getD "") else params
  let params :=
    if truthy page ∧ page ≠ some "1" then params.set "page" (page.getD "") else params
  params

/-- The URL `applyFilters` passes to `router.push` (lines 162-165). -/
def applyFiltersUrl (r : FiltersRender) : Url :=
  buildUrl r.pathname (applyFiltersParams r)

/-- The callback `applyFilters` of a render (lines 143-178): it reads the draft
of that render, pushes the URL and closes the sheet. -/
def applyFilters (r : FiltersRender) : FiltersOutcome :=
  { draft := r.draft, isSheetOpen := false, pushed := [applyFiltersUrl r] }

/-- The handler `clearFilters` (lines 122-140). -/
def clearFilters (r : FiltersRender) : FiltersOutcome :=
  let draft : FilterValues :=
    { make := "", bodyType := "", fuelType := "", transmission := ""
      priceRange := (some r.priceRange.min, some r.priceRange.max)
      sortBy := "newest" }
  let params : URLSearchParams := []
  let search := r.searchParams.get "search"
  let params := if truthy search then params.set "search" (search.getD "") else params
  { draft := draft, isSheetOpen := false, pushed := [buildUrl r.pathname params] }

/-- The `onValueChange` handler of the sort `Select` (lines 227-230):
`setSortBy(value)` followed by `setTimeout(() => applyFilters(), 0)`.  The
handler and the timer callback are closures of the render `r` that created
them, so the `applyFilters` the timer runs is the `useCallback` value of `r`,
which reads the `sortBy` (and the other drafts) bound in `r`; the `setSortBy`
call only affects the state seen by later renders. -/
def onSortValueChange (r : FiltersRender) (value : String) : FiltersOutcome :=
  let afterSet : FilterValues := { r.draft with sortBy := value }
  let timer := applyFilters r
  { draft := afterSet, isSheetOpen := timer.isSheetOpen, pushed := timer.pushed }

/-- The render that follows a navigation to `url` with the catalog and pathname
unchanged: `searchParams` is the new query and the sync effect (lines 57-72)
has set the drafts to the freshly parsed `current*` values. -/
def renderAt (priceRange : PriceRange) (pathname : String) (url : Url) : FiltersRender :=
  { priceRange := priceRange, pathname := pathname, searchParams := url.searchParams
    draft := currentValues priceRange url.searchParams, isSheetOpen := false }

/-- The first render of `/cars?minPrice=50` with catalog prices 100..1000: the
draft low bound is 50, below the catalog minimum. -/
def belowMinRender : FiltersRender :=
  renderAt ⟨100, 1000⟩ "/cars" (Url.pathQuery "/cars" [("minPrice", "50")])

/-- A render whose draft sort value is the empty string. -/
def emptySortRender : FiltersRender :=
  { priceRange := ⟨100, 1000⟩, pathname := "/cars", searchParams := []
    draft :=
      { make := "", bodyType := "", fuelType := "", transmission := ""
        priceRange := (some 100, some 1000), sortBy := "" }
    isSheetOpen := false }

/-- A render with catalog prices 100..1000 whose draft is
`make = "Toyota"`, `priceRange = [200, 1000]`, `sortBy = "priceAsc"`, on the
URL `/cars?search=suv`. -/
def toyotaRender : FiltersRender :=
  { priceRange := ⟨100, 1000⟩, pathname := "/cars", searchParams := [("search", "suv")]
    draft :=
      { make := "Toyota", bodyType := "", fuelType := "", transmission := ""
        priceRange := (some 200, some 1000), sortBy := "priceAsc" }
    isSheetOpen := true }

/-- The first render of `/cars?minPrice=1000` with catalog prices 100..1000:
both draft bounds sit on the catalog maximum. -/
def atMaxRender : FiltersRender :=
  renderAt ⟨100, 1000⟩ "/cars" (Url.pathQuery "/cars" [("minPrice", "1000")])

/-- A render on `/cars?page=3` in which the user has picked the make
`"Toyota"`, which the URL does not carry yet. -/
def pageThreeRender : FiltersRender :=
  { renderAt ⟨100, 1000⟩ "/cars" (Url.pathQuery "/cars" [("page", "3")]) with
    draft :=
      { make := "Toyota", bodyType := "", fuelType := "", transmission := ""
        priceRange := (some 100, some 1000), sortBy := "newest" } }

/-- The first render of the bare `/cars` URL with catalog prices 100..1000:
every draft is at its default and the sort value is `"newest"`. -/
def newestRender : FiltersRender :=
  renderAt ⟨100, 1000⟩ "/cars" (Url.path "/cars")

/-! ## `CarListings`: page actions (car-listing.jsx, lines 79-82 and 225-258) -/

/-- The handler `handlePageChange`: `setCurrentPage(pageNum)`; the result is the
new `currentPage` state. -/
def handlePageChange (pageNum : Int) : Int := pageNum

/-- The `onClick` of `PaginationPrevious`:
`if (page > 1) handlePageChange(page - 1)`; the result is `currentPage` after
the click. -/
def onPreviousClick (page currentPage : Int) : Int :=
  if page > 1 then handlePageChange (page - 1) else currentPage

/-- The `onClick` of `PaginationNext`:
`if (page < pagination.pages) handlePageChange(page + 1)`. -/
def onNextClick (page pages currentPage : Int) : Int :=
  if page < pages then handlePageChange (page + 1) else currentPage

/-- The `onClick` of a `PaginationLink`: `handlePageChange(pageNumber)`. -/
def onPageLinkClick (pageNumber : Int) (_currentPage : Int) : Int :=
  handlePageChange pageNumber

/-! ## `CarDetails`: the wishlist toggle (car-details.jsx, lines 36-76) -/

/-- A call of `toast.error` or `toast.success`. -/
inductive Toast where
  | error (message : String)
  | success (message : String)
  deriving DecidableEq, Repr

/-- What a render of `CarDetails` binds for `handleSaveCar`: `car.id`,
`isSignedIn` from `useAuth()` (`none` is `undefined`, while the session loads),
the `loading` flag `savingCar` of the toggle call and the local `isWishlisted`
state. -/
structure DetailsRender where
  carId : String
  isSignedIn : Option Bool
  savingCar : Bool
  isWishlisted : Bool
  deriving DecidableEq, Repr

/-- What `handleSaveCar` does: the toasts raised, the routes passed to
`router.push`, the arguments of the calls to `toggleSavedCarFn`, and the local
`isWishlisted` state afterwards. -/
structure DetailsOutcome where
  toasts : List Toast
  pushed : List String
  remoteCalls : List String
  isWishlisted : Bool
  deriving DecidableEq, Repr

/-- The handler `handleSaveCar` (lines 65-76). -/
def handleSaveCar (r : DetailsRender) : DetailsOutcome :=
  if r.isSignedIn ≠ some true then
    { toasts := [Toast.error "Please sign in to save cars"], pushed := ["/sign-in"]
      remoteCalls := [], isWishlisted := r.isWishlisted }
  else if r.savingCar then
    { toasts := [], pushed := [], remoteCalls := [], isWishlisted := r.isWishlisted }
  else
    { toasts := [], pushed := [], remoteCalls := [r.carId], isWishlisted := r.isWishlisted }

/-- The value `toggleSavedCar` resolves to, as `CarDetails` reads it:
`success`, `saved` and `message`. -/
structure ToggleResponse where
  success : Bool
  saved : Bool
  message : String
  deriving DecidableEq, Repr

/-- The effect on `[toggleResult]` (lines 50-55): the local `isWishlisted`
state and the toasts after it has run; `none` is a `toggleResult` that is
`undefined` or `null`. -/
def toggleResultEffect (isWishlisted : Bool) (toggleResult : Option ToggleResponse) :
    Bool × List Toast :=
  match toggleResult with
  | some res =>
    if res.success then (res.saved, [Toast.success res.message]) else (isWishlisted, [])
  | none => (isWishlisted, [])

/-- The effect on `[toggleError]` (lines 58-62): it only raises a toast. -/
def toggleErrorEffect (toggleError : Option String) : List Toast :=
  match toggleError with
  | some _ => [Toast.error "Failed to update favorites"]
  | none => []

/-- What the toggle call delivers to `CarDetails` through the hook: a new
`toggleResult` (which re-runs the first effect) or a new `toggleError` (which
re-runs the second). -/
inductive ToggleOutcome where
  | result (toggleResult : ToggleResponse)
  | error (toggleError : String)
  deriving DecidableEq, Repr

/-- The local `isWishlisted` state and the toasts once the effect triggered by
a toggle outcome has run. -/
def processToggleOutcome (isWishlisted : Bool) : ToggleOutcome → Bool × List Toast
  | ToggleOutcome.result res => toggleResultEffect isWishlisted (some res)
  | ToggleOutcome.error err => (isWishlisted, toggleErrorEffect (some err))

/-! ## `CarDetails`: working hours (car-details.jsx, lines 395-435) -/

/-- An element of `testDriveInfo.dealership.workingHours`. -/
structure WorkingHoursEntry where
  dayOfWeek : String
  isOpen : Bool
  openTime : String
  closeTime : String
  deriving DecidableEq, Repr

/-- The constant `days` of the sort comparator (lines 398-406). -/
def days : List String :=
  ["MONDAY", "TUESDAY", "WEDNESDAY", "THURSDAY", "FRIDAY", "SATURDAY", "SUNDAY"]

/-- The method `Array.prototype.indexOf` on an array of strings: the first
index holding `x`, `-1` when there is none. -/
def indexOf (xs : List String) (x : String) : Int :=
  match xs with
  | [] => -1
  | y :: rest =>
    if y = x then 0
    else
      let i := indexOf rest x
      if i = -1 then -1 else i + 1

/-- The comparator passed to `sort` (lines 397-408). -/
def compareDays (a b : WorkingHoursEntry) : Int :=
  indexOf days a.dayOfWeek - indexOf days b.dayOfWeek

/-- The array after `workingHours.sort(compareDays)`: `Array.prototype.sort`
is a stable sort that puts `a` before `b` when the comparator is negative and
keeps their order when it is zero. -/
def sortWorkingHours (entries : List WorkingHoursEntry) : List WorkingHoursEntry :=
  entries.insertionSort (fun a b => compareDays a b ≤ 0)

/-- A rendered working-hours row: the React key, the day label and the hours
text. -/
structure HoursRow where
  key : String
  label : String
  hours : String
  deriving DecidableEq, Repr

/-- The label `day.dayOfWeek.charAt(0) + day.dayOfWeek.slice(1).toLowerCase()`;
`toLowerCase` is taken on ASCII letters, which is all a weekday name has. -/
def dayLabel (dayOfWeek : String) : String :=
  match dayOfWeek.data with
  | [] => ""
  | c :: rest => String.mk (c :: rest.map Char.toLower)

/-- The row rendered for a supplied entry (lines 409-418). -/
def renderEntry (day : WorkingHoursEntry) : HoursRow :=
  { key := day.dayOfWeek
    label := dayLabel day.dayOfWeek
    hours := if day.isOpen then day.openTime ++ " - " ++ day.closeTime else "Closed" }

/-- The row rendered for the `index`-th day of the default schedule
(lines 428-435). -/
def renderDefaultDay (index : Nat) (day : String) : HoursRow :=
  { key := day
    label := day
    hours :=
      if index < 5 then "9:00 - 18:00" else if index = 5 then "10:00 - 16:00" else "Closed" }

/-- The `array.map((day, index) => f(index, day))` call on an array whose first
element has index `start`. -/
def mapWithIndex (f : Nat → String → HoursRow) : Nat → List String → List HoursRow
  | _, [] => []
  | start, x :: rest => f start x :: mapWithIndex f (start + 1) rest

/-- The rows of the working-hours card (lines 395-435): the supplied entries
sorted and rendered, or the default week when `workingHours` is absent
(`undefined` or `null`, here `none`). -/
def workingHoursRows (workingHours : Option (List WorkingHoursEntry)) : List HoursRow :=
  match workingHours with
  | some entries => (sortWorkingHours entries).map renderEntry
  | none =>
    mapWithIndex renderDefaultDay 0
      ["Monday", "Tuesday", "Wednesday", "Thursday", "Friday", "Saturday", "Sunday"]

/-- Entries for SUNDAY (closed), MONDAY and WEDNESDAY, in that order. -/
def sampleWorkingHours : List WorkingHoursEntry :=
  [⟨"SUNDAY", false, "", ""⟩, ⟨"MONDAY", true, "09:00", "18:00"⟩,
    ⟨"WEDNESDAY", true, "10:00", "17:00"⟩]

/-! ## `CarListings`: what is rendered (car-listing.jsx, lines 91-133) -/

/-- The `pagination` object of a search result. -/
structure Pagination where
  total : Int
  pages : Int
  page : Int
  limit : Int
  deriving DecidableEq, Repr

/-- The value `result` read from the search hook: `success`, `data` (the cars,
here their ids; `none` when the response carries no `data`) and `pagination`. -/
structure SearchResult where
  success : Bool
  data : Option (List String)
  pagination : Option Pagination
  deriving DecidableEq, Repr

/-- What `CarListings` returns. -/
inductive ListingView where
  | loadingPlaceholder
  | emptyPlaceholder
  | errorAlert
  | emptyStateCard
  | resultsGrid (cars : List String)
  deriving DecidableEq, Repr

/-- The chain of early returns of `CarListings` (lines 91-133) ending in the
results grid; `error` is the hook's error (`none` when falsy). -/
def renderListing (loading : Bool) (result : Option SearchResult) (error : Option String) :
    ListingView :=
  if loading ∧ result = none then ListingView.loadingPlaceholder
  else
    match result with
    | none => ListingView.emptyPlaceholder
    | some res =>
      match res.data with
      | none => ListingView.emptyPlaceholder
      | some cars =>
        if error ≠ none ∨ ¬ res.success then ListingView.errorAlert
        else if cars.length = 0 then ListingView.emptyStateCard
        else ListingView.resultsGrid cars

/-- The page links and ellipses that reach the page (lines 221-262): the
`Pagination` block, which holds `paginationItems` between the Previous and Next
controls, is rendered only under `pagination.pages > 1`. -/
def renderedPaginationItems (pages page : Int) : List PaginationItem :=
  if pages > 1 then paginationItems pages page else []

/-- Whether a pagination item is a page link rendered with `isActive` true. -/
def PaginationItem.isActiveLink : PaginationItem → Bool
  | PaginationItem.link _ isActive => isActive
  | PaginationItem.ellipsis _ => false

/-! ## `CarListings`: the query, the page sync and the fetch (car-listing.jsx, lines 27-82) -/

/-- A value that is a string or a number, as `minPrice` and `maxPrice` are
after `searchParams.get(…) || <number>`. -/
inductive JsValue where
  | str (s : String)
  | num (n : Int)
  deriving DecidableEq, Repr

/-- The expression `x || n` for `x : string | null` and a number `n`. -/
def orNumber (x : Option String) (n : Int) : JsValue :=
  match x with
  | some s => if s ≠ "" then JsValue.str s else JsValue.num n
  | none => JsValue.num n

/-- The argument object of `fetchCars` (lines 46-57). -/
structure ListingQuery where
  search : String
  make : String
  bodyType : String
  fuelType : String
  transmission : String
  minPrice : JsValue
  maxPrice : JsValue
  sortBy : String
  page : JsNumber
  limit : Int
  deriving DecidableEq, Repr

/-- The filter values `CarListings` extracts from `searchParams` (lines 31-39)
with `limit = 6`; `9007199254740991` is `Number.MAX_SAFE_INTEGER`. -/
def listingQuery (searchParams : URLSearchParams) : ListingQuery :=
  { search := orDefault (searchParams.get "search") ""
    make := orDefault (searchParams.get "make") ""
    bodyType := orDefault (searchParams.get "bodyType") ""
    fuelType := orDefault (searchParams.get "fuelType") ""
    transmission := orDefault (searchParams.get "transmission") ""
    minPrice := orNumber (searchParams.get "minPrice") 0
    maxPrice := orNumber (searchParams.get "maxPrice") 9007199254740991
    sortBy := orDefault (searchParams.get "sortBy") "newest"
    page := parseInt (orDefault (searchParams.get "page") "1")
    limit := 6 }

/-- The initial value of the `currentPage` state: `useState(1)`. -/
def initialCurrentPage : Int := 1

/-- The effect "Update URL when page changes" (lines 71-77): the queries of the
relative URLs `?query` it passes to `router.push`.  `currentPage !== page`
holds as well when `page` is `NaN`. -/
def pageSyncEffect (currentPage : Int) (searchParams : URLSearchParams) :
    List URLSearchParams :=
  if some currentPage ≠ (listingQuery searchParams).page then
    let params : URLSearchParams := searchParams
    let params := params.set "page" (numberToString (some currentPage))
    [params]
  else []

/-- Modelled from the spec: the state of the search hook `useFetch`
(`@/hooks/use-fetch`), which is not among the sources.  The spec has it as the
tagged variant `Idle | Loading{query} | Success{query,result} |
Error{query,message}`, keyed by the query that produced it. -/
inductive FetchState (Q R : Type) where
  | idle
  | loading (query : Q)
  | success (query : Q) (result : R)
  | error (query : Q) (message : String)
  deriving DecidableEq, Repr

/-- Modelled from the spec: the reply of the search call, `{success: true,
data, pagination}` (here `ok`) or `{success: false, message}`. -/
inductive FetchResponse (R : Type) where
  | ok (result : R)
  | failed (message : String)
  deriving DecidableEq, Repr

/-- Modelled from the spec: invoking the hook's `fn` with a query, absent from
the sources; the state re-enters `loading`, now keyed by the new query, which
supersedes any request still in flight. -/
def FetchState.issue {Q R : Type} (_s : FetchState Q R) (query : Q) : FetchState Q R :=
  FetchState.loading query

/-- Modelled from the spec: the arrival of the reply to the request made for
`query`, handled by the hook that is absent from the sources; it is applied
when `query` is the query the state is loading and discarded otherwise (a
stale or out-of-order response). -/
def FetchState.receive {Q R : Type} [DecidableEq Q] (s : FetchState Q R) (query : Q)
    (response : FetchResponse R) : FetchState Q R :=
  match s with
  | FetchState.loading current =>
    if current = query then
      match response with
      | FetchResponse.ok result => FetchState.success query result
      | FetchResponse.failed message => FetchState.error query message
    else s
  | _ => s

/-- The effect "Fetch cars when filters change" (lines 45-68): it calls
`fetchCars` with the query derived from the current `searchParams`. -/
def fetchEffect {R : Type} (s : FetchState ListingQuery R) (searchParams : URLSearchParams) :
    FetchState ListingQuery R :=
  s.issue (listingQuery searchParams)

/-! ## `CarDetails`: the EMI estimate card (car-details.jsx, lines 222-231) -/

/-- The amount passed to `formatCurrency` on the card: `car.price / 60`, in
exact arithmetic. -/
def estimatedMonthlyPayment (price : ℚ) : ℚ := price / 60

/-- The amortised instalment the card's footnote describes, for a principal, a
rate per month and a number of months: `P·r·(1+r)^n / ((1+r)^n - 1)`. -/
def amortisedPayment (principal rate : ℚ) (months : ℕ) : ℚ :=
  principal * rate * (1 + rate) ^ months / ((1 + rate) ^ months - 1)

/-! ## Lemmas on the pagination window -/

theorem mem_pushWindow (x : Int) : ∀ (fuel : Nat) (i hi : Int) (acc : List Int),
    (hi + 1 - i).toNat ≤ fuel →
    (x ∈ pushWindow fuel i hi acc ↔ x ∈ acc ∨ (i ≤ x ∧ x ≤ hi))
  | 0, i, hi, acc, hf => by
    have : hi < i := by omega
    simp only [pushWindow]
    constructor
    · intro h; exact Or.inl h
    · rintro (h | ⟨h1, h2⟩)
      · exact h
      · omega
  | fuel + 1, i, hi, acc, hf => by
    simp only [pushWindow]
    split
    · rw [mem_pushWindow x fuel (i + 1) hi (acc ++ [i]) (by omega)]
      simp only [List.mem_append, List.mem_singleton]
      constructor
      · rintro ((h | h) | ⟨h1, h2⟩)
        · exact Or.inl h
        · exact Or.inr ⟨by omega, by omega⟩
        · exact Or.inr ⟨by omega, h2⟩
      · rintro (h | ⟨h1, h2⟩)
        · exact Or.inl (Or.inl h)
        · by_cases hx : x = i
          · exact Or.inl (Or.inr hx)
          · exact Or.inr ⟨by omega, h2⟩
    · constructor
      · intro h; exact Or.inl h
      · rintro (h | ⟨h1, h2⟩)
        · exact h
        · omega

theorem mem_visiblePageNumbers (pages page x : Int) :
    x ∈ visiblePageNumbers pages page ↔
      x = 1 ∨ (max 2 (page - 1) ≤ x ∧ x ≤ min (pages - 1) (page + 1)) ∨
        (pages > 1 ∧ x = pages) := by
  unfold visiblePageNumbers
  simp only
  split
  · rename_i hp
    simp only [List.mem_append, List.mem_singleton, mem_pushWindow x _ _ _ _ (le_refl _)]
    constructor
    · rintro ((h | h) | h)
      · exact Or.inl h
      · exact Or.inr (Or.inl h)
      · exact Or.inr (Or.inr ⟨hp, h⟩)
    · rintro (h | h | ⟨_, h⟩)
      · exact Or.inl (Or.inl h)
      · exact Or.inl (Or.inr h)
      · exact Or.inr h
  · rename_i hp
    simp only [List.mem_singleton, mem_pushWindow x _ _ _ _ (le_refl _)]
    constructor
    · rintro (h | h)
      · exact Or.inl h
      · exact Or.inr (Or.inl h)
    · rintro (h | h | ⟨h, _⟩)
      · exact Or.inl h
      · exact Or.inr h
      · exact absurd h hp

theorem newSet_foldl_spec (xs : List Int) : ∀ seen : List Int, seen.Nodup →
    (xs.foldl (fun seen x => if x ∈ seen then seen else seen ++ [x]) seen).Nodup ∧
    ∀ x, x ∈ xs.foldl (fun seen x => if x ∈ seen then seen else seen ++ [x]) seen ↔
      x ∈ seen ∨ x ∈ xs := by
  induction xs with
  | nil => intro seen h; simp [h]
  | cons a rest ih =>
    intro seen h
    simp only [List.foldl_cons]
    by_cases ha : a ∈ seen
    · simp only [ha, if_true]
      refine ⟨(ih seen h).1, fun x => ?_⟩
      rw [(ih seen h).2 x]
      simp only [List.mem_cons]
      constructor
      · rintro (h1 | h1)
        · exact Or.inl h1
        · exact Or.inr (Or.inr h1)
      · rintro (h1 | h1 | h1)
        · exact Or.inl h1
        · exact Or.inl (h1 ▸ ha)
        · exact Or.inr h1
    · simp only [ha, if_false]
      have hnd : (seen ++ [a]).Nodup := by
        rw [List.nodup_append]
        refine ⟨h, List.nodup_singleton a, ?_⟩
        intro y hy hy2
        rw [List.mem_singleton] at hy2
        exact ha (hy2 ▸ hy)
      refine ⟨(ih _ hnd).1, fun x => ?_⟩
      rw [(ih _ hnd).2 x]
      simp only [List.mem_append, List.mem_cons, List.not_mem_nil, or_false]
      constructor
      · rintro ((h1 | h1) | h1)
        · exact Or.inl h1
        · exact Or.inr (Or.inl h1)
        · exact Or.inr (Or.inr h1)
      · rintro (h1 | h1 | h1)
        · exact Or.inl (Or.inl h1)
        · exact Or.inl (Or.inr h1)
        · exact Or.inr h1

theorem nodup_newSet (xs : List Int) : (newSet xs).Nodup :=
  (newSet_foldl_spec xs [] List.nodup_nil).1

theorem mem_newSet (xs : List Int) (x : Int) : x ∈ newSet xs ↔ x ∈ xs := by
  unfold newSet
  rw [(newSet_foldl_spec xs [] List.nodup_nil).2 x]
  simp

theorem mem_uniquePageNumbers (pages page x : Int) :
    x ∈ uniquePageNumbers pages page ↔
      x = 1 ∨ (max 2 (page - 1) ≤ x ∧ x ≤ min (pages - 1) (page + 1)) ∨
        (pages > 1 ∧ x = pages) := by
  unfold uniquePageNumbers
  rw [(List.perm_insertionSort (· ≤ ·) _).mem_iff, mem_newSet, mem_visiblePageNumbers]

theorem nodup_uniquePageNumbers (pages page : Int) : (uniquePageNumbers pages page).Nodup :=
  (List.perm_insertionSort (· ≤ ·) _).nodup_iff.mpr (nodup_newSet _)

theorem sorted_uniquePageNumbers (pages page : Int) :
    (uniquePageNumbers pages page).Sorted (· < ·) :=
  (List.sorted_insertionSort (· ≤ ·) _).lt_of_le (nodup_uniquePageNumbers pages page)

theorem one_le_of_mem_uniquePageNumbers (pages page x : Int)
    (hx : x ∈ uniquePageNumbers pages page) : 1 ≤ x := by
  rw [mem_uniquePageNumbers] at hx
  rcases hx with h | ⟨h, _⟩ | ⟨h1, h2⟩
  · omega
  · have : (2 : Int) ≤ max 2 (page - 1) := le_max_left _ _
    omega
  · omega

/-- The sorted list of visible pages starts with page 1. -/
theorem uniquePageNumbers_eq_cons (pages page : Int) :
    ∃ rest, uniquePageNumbers pages page = 1 :: rest := by
  have hmem : (1 : Int) ∈ uniquePageNumbers pages page :=
    (mem_uniquePageNumbers pages page 1).mpr (Or.inl rfl)
  have hsorted := sorted_uniquePageNumbers pages page
  have hge := one_le_of_mem_uniquePageNumbers pages page
  cases hl : uniquePageNumbers pages page with
  | nil => rw [hl] at hmem; exact absurd hmem (List.not_mem_nil _)
  | cons a rest =>
    rw [hl] at hmem hsorted hge
    refine ⟨rest, ?_⟩
    have ha : 1 ≤ a := hge a (List.mem_cons_self _ _)
    rcases List.mem_cons.mp hmem with h | h
    · rw [← h]
    · have : a < 1 := List.rel_of_sorted_cons hsorted 1 h
      omega

theorem foldl_pushPaginationItem (page : Int) : ∀ (xs : List Int)
    (items : List PaginationItem) (last : Int),
    (xs.foldl (pushPaginationItem page) (items, last)).1 =
      items ++ ellipsisSpec page (some last) xs
  | [], items, last => by simp [ellipsisSpec]
  | p :: rest, items, last => by
    have hstep : pushPaginationItem page (items, last) p =
        ((if p - last > 1 then items ++ [PaginationItem.ellipsis p] else items) ++
          [PaginationItem.link p (decide (p = page))], p) := rfl
    rw [List.foldl_cons, hstep, foldl_pushPaginationItem page rest]
    by_cases h : p - last > 1
    · simp [ellipsisSpec, h]
    · simp [ellipsisSpec, h]

theorem mem_of_ellipsis_mem_ellipsisSpec (page p : Int) : ∀ (xs : List Int) (prev : Option Int),
    PaginationItem.ellipsis p ∈ ellipsisSpec page prev xs → p ∈ xs
  | [], prev, h => by cases prev <;> simp [ellipsisSpec] at h
  | a :: rest, none, h => by
    simp only [ellipsisSpec, List.mem_cons] at h
    rcases h with h | h
    · cases h
    · exact List.mem_cons_of_mem _ (mem_of_ellipsis_mem_ellipsisSpec page p rest _ h)
  | a :: rest, some q, h => by
    simp only [ellipsisSpec] at h
    split at h
    · simp only [List.mem_cons] at h
      rcases h with h | h | h
      · cases h; exact List.mem_cons_self _ _
      · cases h
      · exact List.mem_cons_of_mem _ (mem_of_ellipsis_mem_ellipsisSpec page p rest _ h)
    · simp only [List.mem_cons] at h
      rcases h with h | h
      · cases h
      · exact List.mem_cons_of_mem _ (mem_of_ellipsis_mem_ellipsisSpec page p rest _ h)

theorem paginationItems_eq_ellipsisSpec (pages page : Int) :
    paginationItems pages page = ellipsisSpec page none (uniquePageNumbers pages page) := by
  obtain ⟨rest, hrest⟩ := uniquePageNumbers_eq_cons pages page
  unfold paginationItems
  rw [foldl_pushPaginationItem, hrest]
  simp [ellipsisSpec]

theorem ellipsis_one_not_mem_paginationItems (pages page : Int) :
    PaginationItem.ellipsis 1 ∉ paginationItems pages page := by
  obtain ⟨rest, hrest⟩ := uniquePageNumbers_eq_cons pages page
  have hnd := nodup_uniquePageNumbers pages page
  rw [paginationItems_eq_ellipsisSpec, hrest]
  rw [hrest] at hnd
  intro h
  simp only [ellipsisSpec, List.mem_cons] at h
  rcases h with h | h
  · cases h
  · exact (List.nodup_cons.mp hnd).1 (mem_of_ellipsis_mem_ellipsisSpec page 1 rest _ h)

/-! ## Claims on the pagination window -/

/-- C1: for `totalPages ≥ 1` and any integer `page`, the visible page list
`uniquePageNumbers` is strictly ascending, has no duplicates, and its members
are exactly page 1, every `i` with
`max(2, page-1) ≤ i ≤ min(totalPages-1, page+1)`, and `totalPages` when
`totalPages > 1`; it is `[1,4,5,6,10]` for `totalPages=10, page=5` and
`[1,2,3]` for `totalPages=3, page=1`. -/
theorem C1_visible_pages (totalPages page : Int) (_h : 1 ≤ totalPages) :
    (uniquePageNumbers totalPages page).Sorted (· < ·) ∧
    (uniquePageNumbers totalPages page).Nodup ∧
    (∀ i, i ∈ uniquePageNumbers totalPages page ↔
      i = 1 ∨ (max 2 (page - 1) ≤ i ∧ i ≤ min (totalPages - 1) (page + 1)) ∨
        (totalPages > 1 ∧ i = totalPages)) ∧
    uniquePageNumbers 10 5 = [1, 4, 5, 6, 10] ∧
    uniquePageNumbers 3 1 = [1, 2, 3] :=
  ⟨sorted_uniquePageNumbers totalPages page, nodup_uniquePageNumbers totalPages page,
    mem_uniquePageNumbers totalPages page, by decide, by decide⟩

/-- Witness of C1 at `totalPages = 10`, `page = 5`. -/
theorem C1_visible_pages_witness :
    (1 : Int) ≤ 10 ∧
    (uniquePageNumbers 10 5).Sorted (· < ·) ∧
    (uniquePageNumbers 10 5).Nodup ∧
    (∀ i, i ∈ uniquePageNumbers 10 5 ↔
      i = 1 ∨ (max 2 ((5 : Int) - 1) ≤ i ∧ i ≤ min ((10 : Int) - 1) (5 + 1)) ∨
        ((10 : Int) > 1 ∧ i = 10)) ∧
    uniquePageNumbers 10 5 = [1, 4, 5, 6, 10] ∧
    uniquePageNumbers 3 1 = [1, 2, 3] :=
  ⟨by decide, C1_visible_pages 10 5 (by decide)⟩

/-- C2: for `totalPages ≥ 1` and any `page`, the rendered `paginationItems`
are the visible pages in order with an ellipsis immediately before a page `p`
exactly when `p` exceeds the previous visible page by more than 1, and no
ellipsis before page 1; for `totalPages=10, page=5` the ellipses are those
before 4 and before 10, and for `totalPages=3, page=1` there is none. -/
theorem C2_ellipsis_placement (totalPages page : Int) (_h : 1 ≤ totalPages) :
    paginationItems totalPages page =
      ellipsisSpec page none (uniquePageNumbers totalPages page) ∧
    PaginationItem.ellipsis 1 ∉ paginationItems totalPages page ∧
    paginationItems 10 5 =
      [.link 1 false, .ellipsis 4, .link 4 false, .link 5 true, .link 6 false,
        .ellipsis 10, .link 10 false] ∧
    paginationItems 3 1 = [.link 1 true, .link 2 false, .link 3 false] :=
  ⟨paginationItems_eq_ellipsisSpec totalPages page,
    ellipsis_one_not_mem_paginationItems totalPages page, by decide, by decide⟩

/-- Witness of C2 at `totalPages = 10`, `page = 5`. -/
theorem C2_ellipsis_placement_witness :
    (1 : Int) ≤ 10 ∧
    paginationItems 10 5 = ellipsisSpec 5 none (uniquePageNumbers 10 5) ∧
    PaginationItem.ellipsis 1 ∉ paginationItems 10 5 ∧
    paginationItems 10 5 =
      [.link 1 false, .ellipsis 4, .link 4 false, .link 5 true, .link 6 false,
        .ellipsis 10, .link 10 false] ∧
    paginationItems 3 1 = [.link 1 true, .link 2 false, .link 3 false] :=
  ⟨by decide, C2_ellipsis_placement 10 5 (by decide)⟩

/-! ## Decimal rendering and `parseInt` -/

theorem digitChar_props (d : Nat) (h : d < 10) :
    digitValue (Nat.digitChar d) = some d ∧ isStrWhiteSpace (Nat.digitChar d) = false ∧
      Nat.digitChar d ≠ '-' ∧ Nat.digitChar d ≠ '+' ∧ Nat.digitChar d ≠ 'x' ∧
      Nat.digitChar d ≠ 'X' := by
  interval_cases d <;> decide

theorem toDigitsCore_spec : ∀ (fuel n : Nat) (acc : List Char), n < fuel →
    ∃ ds : List Nat, ds ≠ [] ∧ (∀ d ∈ ds, d < 10) ∧
      Nat.toDigitsCore 10 fuel n acc = ds.map Nat.digitChar ++ acc ∧
      ds.foldl (fun a d => a * 10 + d) 0 = n
  | 0, n, acc, h => absurd h (Nat.not_lt_zero n)
  | fuel + 1, n, acc, h => by
    simp only [Nat.toDigitsCore]
    split
    · rename_i h0
      refine ⟨[n % 10], by simp, ?_, by simp, ?_⟩
      · intro d hd
        rw [List.mem_singleton] at hd
        omega
      · simp only [List.foldl_cons, List.foldl_nil]
        omega
    · rename_i h0
      obtain ⟨ds, hne, hlt, heq, hval⟩ :=
        toDigitsCore_spec fuel (n / 10) (Nat.digitChar (n % 10) :: acc) (by omega)
      refine ⟨ds ++ [n % 10], by simp, ?_, ?_, ?_⟩
      · intro d hd
        rcases List.mem_append.mp hd with hd | hd
        · exact hlt d hd
        · rw [List.mem_singleton] at hd
          omega
      · rw [heq]
        simp
      · rw [List.foldl_append, hval]
        simp only [List.foldl_cons, List.foldl_nil]
        omega

theorem takeDigits_map_digitChar : ∀ ds : List Nat, (∀ d ∈ ds, d < 10) →
    takeDigits 10 (ds.map Nat.digitChar) = ds
  | [], _ => rfl
  | d :: rest, h => by
    have hd : d < 10 := h d (List.mem_cons_self _ _)
    simp only [List.map_cons, takeDigits, (digitChar_props d hd).1, hd, if_true]
    rw [takeDigits_map_digitChar rest (fun x hx => h x (List.mem_cons_of_mem _ hx))]

theorem stripHexPrefix_map_digitChar (ds : List Nat) (h : ∀ d ∈ ds, d < 10) :
    stripHexPrefix (ds.map Nat.digitChar) = (10, ds.map Nat.digitChar) := by
  match ds, h with
  | [], _ => rfl
  | [_], _ => rfl
  | c :: d :: rest, h =>
    have hd : d < 10 := h d (by simp)
    have hx := (digitChar_props d hd).2.2.2.2
    simp only [List.map_cons, stripHexPrefix]
    rw [if_neg]
    rintro ⟨_, h1 | h1⟩
    · exact hx.1 h1
    · exact hx.2 h1

/-- On a safe integer, `parseInt` reads back what `toString` prints. -/
theorem parseInt_numberToString (n : Int) (_hsafe : isSafeInteger n = true) :
    parseInt (numberToString (some n)) = some n := by
  cases n with
  | ofNat m =>
    obtain ⟨ds, hne, hlt, heq, hval⟩ := toDigitsCore_spec (m + 1) m [] (Nat.lt_succ_self m)
    have hdata : (numberToString (some (Int.ofNat m))).data = ds.map Nat.digitChar := by
      simp only [numberToString, Nat.toDigits, heq, List.append_nil]
    cases ds with
    | nil => exact absurd rfl hne
    | cons d rest =>
      have hd := digitChar_props d (hlt d (List.mem_cons_self _ _))
      have hdrop : List.dropWhile isStrWhiteSpace ((d :: rest).map Nat.digitChar) =
          (d :: rest).map Nat.digitChar := by
        simp [List.dropWhile, hd.2.1]
      have hsign : stripSign ((d :: rest).map Nat.digitChar) =
          (false, (d :: rest).map Nat.digitChar) := by
        simp [stripSign, hd.2.2.1, hd.2.2.2.1]
      unfold parseInt
      simp only [hdata, hdrop, hsign, stripHexPrefix_map_digitChar _ hlt,
        takeDigits_map_digitChar _ hlt, hval]
      simp
  | negSucc m =>
    obtain ⟨ds, hne, hlt, heq, hval⟩ :=
      toDigitsCore_spec (m + 1 + 1) (m + 1) [] (Nat.lt_succ_self _)
    have hdata : (numberToString (some (Int.negSucc m))).data = '-' :: ds.map Nat.digitChar := by
      simp only [numberToString, Nat.toDigits, heq, List.append_nil]
    have hdrop : List.dropWhile isStrWhiteSpace ('-' :: ds.map Nat.digitChar) =
        '-' :: ds.map Nat.digitChar := by
      rw [List.dropWhile_cons_of_neg (by decide)]
    have hsign : stripSign ('-' :: ds.map Nat.digitChar) = (true, ds.map Nat.digitChar) := by
      simp [stripSign]
    unfold parseInt
    simp only [hdata, hdrop, hsign, stripHexPrefix_map_digitChar _ hlt,
      takeDigits_map_digitChar _ hlt, hval]
    simp [hne, Int.negSucc_eq]

/-- Sample evaluations of `parseInt` and `numberToString`. -/
theorem parseInt_samples :
    parseInt "300" = some 300 ∧ parseInt "  -42px" = some (-42) ∧ parseInt "0x1f" = some 31 ∧
    parseInt "abc" = none ∧ parseInt "" = none ∧ parseInt "NaN" = none ∧
    numberToString (some (-12)) = "-12" ∧ numberToString (some 0) = "0" ∧
    numberToString none = "NaN" := by
  decide

theorem numberToString_ne_empty (n : Int) (hsafe : isSafeInteger n = true) :
    numberToString (some n) ≠ "" := by
  intro h
  have := parseInt_numberToString n hsafe
  have hempty : parseInt "" = none := by decide
  rw [h, hempty] at this
  cases this

/-! ## `URLSearchParams.get` after `set` -/

theorem get_filter_ne (k k' : String) (hk : k ≠ k') : ∀ ps : List (String × String),
    URLSearchParams.get (ps.filter (fun p => decide (p.1 ≠ k))) k' = URLSearchParams.get ps k'
  | [] => rfl
  | (a, b) :: rest => by
    by_cases h : a = k
    · subst h
      have hstep : List.filter (fun p => decide (p.1 ≠ a)) ((a, b) :: rest) =
          List.filter (fun p => decide (p.1 ≠ a)) rest := by
        simp [List.filter]
      rw [hstep, get_filter_ne a k' hk rest]
      simp [URLSearchParams.get, hk]
    · have hstep : List.filter (fun p => decide (p.1 ≠ k)) ((a, b) :: rest) =
          (a, b) :: List.filter (fun p => decide (p.1 ≠ k)) rest := by
        simp [List.filter, h]
      rw [hstep]
      simp only [URLSearchParams.get]
      rw [get_filter_ne k k' hk rest]

theorem get_replaceFirst (k v k' : String) : ∀ ps : List (String × String),
    ps.any (fun p => decide (p.1 = k)) = true →
    URLSearchParams.get (replaceFirst k v ps) k' =
      if k = k' then some v else URLSearchParams.get ps k'
  | [], h => by simp at h
  | kv :: rest, h => by
    by_cases hkv : kv.1 = k
    · simp only [replaceFirst, hkv, if_true, URLSearchParams.get]
      by_cases hk : k = k'
      · simp [hk]
      · simp only [hk, if_false]
        have := get_filter_ne k k' hk rest
        simpa using this
    · have hrest : rest.any (fun p => decide (p.1 = k)) = true := by
        simpa [List.any_cons, hkv] using h
      simp only [replaceFirst, hkv, if_false, URLSearchParams.get]
      rw [get_replaceFirst k v k' rest hrest]
      by_cases hk : k = k'
      · have : ¬ kv.1 = k' := fun h' => hkv (h'.trans hk.symm)
        simp [hk, this]
      · simp [hk]

theorem get_append_singleton (k v k' : String) : ∀ ps : List (String × String),
    ps.any (fun p => decide (p.1 = k)) = false →
    URLSearchParams.get (ps ++ [(k, v)]) k' =
      if k = k' then some v else URLSearchParams.get ps k'
  | [], _ => by simp [URLSearchParams.get]
  | kv :: rest, h => by
    have hkv : ¬ kv.1 = k := by
      intro h'
      simp [List.any_cons, h'] at h
    have hrest : rest.any (fun p => decide (p.1 = k)) = false := by
      simpa [List.any_cons, hkv] using h
    simp only [List.cons_append, URLSearchParams.get, List.append_eq]
    rw [get_append_singleton k v k' rest hrest]
    by_cases hk : k = k'
    · have : ¬ kv.1 = k' := fun h' => hkv (h'.trans hk.symm)
      simp [hk, this]
    · simp [hk]

theorem get_set (ps : URLSearchParams) (k v k' : String) :
    (URLSearchParams.set ps k v).get k' = if k = k' then some v else ps.get k' := by
  unfold URLSearchParams.set
  cases h : List.any ps (fun p => decide (p.1 = k)) with
  | true => simpa using get_replaceFirst k v k' ps h
  | false => simpa using get_append_singleton k v k' ps h

theorem get_ite_set (c : Prop) [Decidable c] (ps : URLSearchParams) (k v k' : String) :
    (if c then URLSearchParams.set ps k v else ps).get k' =
      if c ∧ k = k' then some v else ps.get k' := by
  by_cases hc : c
  · simp [hc, get_set]
  · simp [hc]

theorem get_nil (k : String) : URLSearchParams.get [] k = none := rfl

theorem searchParams_buildUrl (pathname : String) (params : URLSearchParams) :
    (buildUrl pathname params).searchParams = params := by
  unfold buildUrl
  split
  · rename_i h
    simp [Url.searchParams, h]
  · rfl

/-- The value `applyFilters` leaves under each name of the pushed query. -/
theorem get_applyFiltersParams (r : FiltersRender) :
    (applyFiltersParams r).get "make" =
      (if r.draft.make ≠ "" then some r.draft.make else none) ∧
    (applyFiltersParams r).get "bodyType" =
      (if r.draft.bodyType ≠ "" then some r.draft.bodyType else none) ∧
    (applyFiltersParams r).get "fuelType" =
      (if r.draft.fuelType ≠ "" then some r.draft.fuelType else none) ∧
    (applyFiltersParams r).get "transmission" =
      (if r.draft.transmission ≠ "" then some r.draft.transmission else none) ∧
    (applyFiltersParams r).get "minPrice" =
      (if jsGt r.draft.priceRange.1 r.priceRange.min then
        some (numberToString r.draft.priceRange.1) else none) ∧
    (applyFiltersParams r).get "maxPrice" =
      (if jsLt r.draft.priceRange.2 r.priceRange.max then
        some (numberToString r.draft.priceRange.2) else none) ∧
    (applyFiltersParams r).get "sortBy" =
      (if r.draft.sortBy ≠ "newest" then some r.draft.sortBy else none) ∧
    (applyFiltersParams r).get "search" =
      (if truthy (r.searchParams.get "search") then r.searchParams.get "search" else none) ∧
    (applyFiltersParams r).get "page" =
      (if truthy (r.searchParams.get "page") ∧ r.searchParams.get "page" ≠ some "1" then
        r.searchParams.get "page" else none) := by
  refine ⟨?_, ?_, ?_, ?_, ?_, ?_, ?_, ?_, ?_⟩ <;>
    simp only [applyFiltersParams, get_ite_set, get_nil, String.reduceEq, and_false, and_true,
      if_false]
  · cases h : r.searchParams.get "search" <;> simp [truthy]
  · cases h : r.searchParams.get "page" <;> simp [truthy]

/-! ## Claims on `CarFilters` -/

/-- C3 (as stated, refuted): on the first render of `/cars?minPrice=50` with
catalog prices 100..1000 the draft low bound is 50, which differs from its
default (the catalog minimum 100), yet the URL produced by `applyFilters` has no
`minPrice` parameter. -/
theorem C3_counterexample :
    belowMinRender.draft.priceRange.1 = some 50 ∧
    belowMinRender.draft.priceRange.1 ≠ some belowMinRender.priceRange.min ∧
    (applyFiltersUrl belowMinRender).searchParams.get "minPrice" = none := by
  decide

/-- C3 (amended): the URL produced by `applyFilters` carries `make`,
`bodyType`, `fuelType`, `transmission` exactly when the draft value is not the
empty string, `minPrice` exactly when the draft low bound is strictly above the
catalog minimum, `maxPrice` exactly when the draft high bound is strictly below
the catalog maximum, and `sortBy` exactly when the draft sort is not
`"newest"`; a parameter that is present holds the draft value, and one that is
not written is absent (`get` gives `null`), not present as empty. -/
theorem C3_applyFilters_params (r : FiltersRender) :
    (applyFiltersUrl r).searchParams.get "make" =
      (if r.draft.make ≠ "" then some r.draft.make else none) ∧
    (applyFiltersUrl r).searchParams.get "bodyType" =
      (if r.draft.bodyType ≠ "" then some r.draft.bodyType else none) ∧
    (applyFiltersUrl r).searchParams.get "fuelType" =
      (if r.draft.fuelType ≠ "" then some r.draft.fuelType else none) ∧
    (applyFiltersUrl r).searchParams.get "transmission" =
      (if r.draft.transmission ≠ "" then some r.draft.transmission else none) ∧
    (applyFiltersUrl r).searchParams.get "minPrice" =
      (if jsGt r.draft.priceRange.1 r.priceRange.min then
        some (numberToString r.draft.priceRange.1) else none) ∧
    (applyFiltersUrl r).searchParams.get "maxPrice" =
      (if jsLt r.draft.priceRange.2 r.priceRange.max then
        some (numberToString r.draft.priceRange.2) else none) ∧
    (applyFiltersUrl r).searchParams.get "sortBy" =
      (if r.draft.sortBy ≠ "newest" then some r.draft.sortBy else none) := by
  obtain ⟨h1, h2, h3, h4, h5, h6, h7, _, _⟩ := get_applyFiltersParams r
  unfold applyFiltersUrl
  rw [searchParams_buildUrl]
  exact ⟨h1, h2, h3, h4, h5, h6, h7⟩

/-- C4 (as stated, refuted): re-deriving the filter values from the URL
`applyFilters` produces does not give back the draft when the draft low bound
(50) is below the catalog minimum (100), nor when the draft sort value is the
empty string. -/
theorem C4_counterexample :
    currentValues belowMinRender.priceRange (applyFiltersUrl belowMinRender).searchParams ≠
      belowMinRender.draft ∧
    currentValues emptySortRender.priceRange (applyFiltersUrl emptySortRender).searchParams ≠
      emptySortRender.draft := by
  decide

/-- C4 (amended): for every draft whose price bounds are safe integers
(magnitude at most `2^53 - 1`, the range in which `toString` prints plain
decimal digits and `parseInt` reads them back exactly) with
`low ≥ catalog min` and `high ≤ catalog max` and whose sort value is not the
empty string, re-deriving the filter values from the URL produced by
`applyFilters` (the `current*` parsing, absent parameters read as defaults)
gives back the draft exactly. -/
theorem C4_round_trip (r : FiltersRender) (low high : Int)
    (hprice : r.draft.priceRange = (some low, some high))
    (hlowSafe : isSafeInteger low = true) (hhighSafe : isSafeInteger high = true)
    (hlow : r.priceRange.min ≤ low) (hhigh : high ≤ r.priceRange.max)
    (hsort : r.draft.sortBy ≠ "") :
    currentValues r.priceRange (applyFiltersUrl r).searchParams = r.draft := by
  obtain ⟨h1, h2, h3, h4, h5, h6, h7, _, _⟩ := get_applyFiltersParams r
  unfold applyFiltersUrl
  rw [searchParams_buildUrl]
  unfold currentValues
  rw [h1, h2, h3, h4, h5, h6, h7]
  obtain ⟨pr, pathname, sp, ⟨make, body, fuel, trans, ⟨lo, hi⟩, sortBy⟩, sheet⟩ := r
  simp only at hprice hlow hhigh hsort ⊢
  simp only [Prod.mk.injEq] at hprice
  obtain ⟨rfl, rfl⟩ := hprice
  have hmake : orDefault (if make ≠ "" then some make else none) "" = make := by
    by_cases h : make = "" <;> simp [orDefault, h]
  have hbody : orDefault (if body ≠ "" then some body else none) "" = body := by
    by_cases h : body = "" <;> simp [orDefault, h]
  have hfuel : orDefault (if fuel ≠ "" then some fuel else none) "" = fuel := by
    by_cases h : fuel = "" <;> simp [orDefault, h]
  have htrans : orDefault (if trans ≠ "" then some trans else none) "" = trans := by
    by_cases h : trans = "" <;> simp [orDefault, h]
  have hsortBy : orDefault (if sortBy ≠ "newest" then some sortBy else none) "newest" =
      sortBy := by
    by_cases h : sortBy = "newest"
    · simp [orDefault, h]
    · simp [orDefault, h, hsort]
  have hlo : (if truthy (if jsGt (some low) pr.min then some (numberToString (some low))
        else none) then
        parseInt ((if jsGt (some low) pr.min then some (numberToString (some low))
          else none).getD "")
      else some pr.min) = some low := by
    by_cases h : low > pr.min
    · simp [jsGt, h, truthy, numberToString_ne_empty low hlowSafe,
        parseInt_numberToString low hlowSafe]
    · have : pr.min = low := by omega
      simp [jsGt, h, truthy, this]
  have hhi : (if truthy (if jsLt (some high) pr.max then some (numberToString (some high))
        else none) then
        parseInt ((if jsLt (some high) pr.max then some (numberToString (some high))
          else none).getD "")
      else some pr.max) = some high := by
    by_cases h : high < pr.max
    · simp [jsLt, h, truthy, numberToString_ne_empty high hhighSafe,
        parseInt_numberToString high hhighSafe]
    · have : pr.max = high := by omega
      simp [jsLt, h, truthy, this]
  rw [hmake, hbody, hfuel, htrans, hsortBy, hlo, hhi]

/-- Witness of C4 on the draft `make = "Toyota"`, `priceRange = [200, 1000]`,
`sortBy = "priceAsc"` with catalog prices 100..1000. -/
theorem C4_round_trip_witness :
    toyotaRender.draft.priceRange = (some 200, some 1000) ∧
    isSafeInteger 200 = true ∧ isSafeInteger 1000 = true ∧
    toyotaRender.priceRange.min ≤ 200 ∧ (1000 : Int) ≤ toyotaRender.priceRange.max ∧
    toyotaRender.draft.sortBy ≠ "" ∧
    currentValues toyotaRender.priceRange (applyFiltersUrl toyotaRender).searchParams =
      toyotaRender.draft :=
  ⟨by decide, by decide, by decide, by decide, by decide, by decide,
    C4_round_trip toyotaRender 200 1000 (by decide) (by decide) (by decide) (by decide)
      (by decide) (by decide)⟩

/-- C5 (as stated, refuted): on the first render of `/cars?minPrice=1000`
with catalog prices 100..1000 the draft low bound is 1000, which is not
strictly inside the catalog range, yet `applyFilters` writes `minPrice=1000`. -/
theorem C5_counterexample :
    atMaxRender.draft.priceRange.1 = some 1000 ∧
    ¬ (atMaxRender.priceRange.min < 1000 ∧ (1000 : Int) < atMaxRender.priceRange.max) ∧
    (applyFiltersUrl atMaxRender).searchParams.get "minPrice" = some "1000" := by
  decide

/-- C5 (amended): `applyFilters` writes `minPrice` exactly when the draft low
bound is a number strictly above the catalog minimum and `maxPrice` exactly when
the draft high bound is a number strictly below the catalog maximum; each bound
is compared with its own end of the catalog range only, so a low bound at or
below the minimum and a high bound at or above the maximum are never
serialized. -/
theorem C5_price_bounds (r : FiltersRender) :
    (((applyFiltersUrl r).searchParams.get "minPrice").isSome ↔
      ∃ low : Int, r.draft.priceRange.1 = some low ∧ r.priceRange.min < low) ∧
    (((applyFiltersUrl r).searchParams.get "maxPrice").isSome ↔
      ∃ high : Int, r.draft.priceRange.2 = some high ∧ high < r.priceRange.max) := by
  obtain ⟨_, _, _, _, h5, h6, _, _, _⟩ := get_applyFiltersParams r
  unfold applyFiltersUrl
  rw [searchParams_buildUrl, h5, h6]
  constructor
  · cases hlow : r.draft.priceRange.1 with
    | none => simp [jsGt]
    | some low =>
      by_cases h : low > r.priceRange.min
      · simp [jsGt, h]
      · simp [jsGt, h]
  · cases hhigh : r.draft.priceRange.2 with
    | none => simp [jsLt]
    | some high =>
      by_cases h : high < r.priceRange.max
      · simp [jsLt, h]
      · simp [jsLt, h]

/-- C6 (as stated, refuted): on `/cars?page=3`, committing a draft whose make
(`"Toyota"`) differs from the make in the URL (none) produces a URL that still
carries `page=3`. -/
theorem C6_counterexample :
    pageThreeRender.draft.make ≠ (currentValues pageThreeRender.priceRange
      pageThreeRender.searchParams).make ∧
    (applyFiltersUrl pageThreeRender).searchParams.get "page" = some "3" := by
  decide

/-- C6 (amended): `applyFilters` carries the `page` parameter of the current
URL over to the produced URL whenever it is present, non-empty and not `"1"`,
whatever the draft holds (whether or not a facet, a price bound or the sort
differs from the URL); the produced URL has no `page` parameter exactly when the
current URL has none or has `page` empty or `"1"`. -/
theorem C6_page_carried_over (r : FiltersRender) :
    (applyFiltersUrl r).searchParams.get "page" =
      (if truthy (r.searchParams.get "page") ∧ r.searchParams.get "page" ≠ some "1" then
        r.searchParams.get "page" else none) := by
  obtain ⟨_, _, _, _, _, _, _, _, h9⟩ := get_applyFiltersParams r
  unfold applyFiltersUrl
  rw [searchParams_buildUrl, h9]

/-- C7: from every draft and every current URL, `clearFilters` sets the drafts
to `make = bodyType = fuelType = transmission = ""`,
`priceRange = [catalog min, catalog max]`, `sortBy = "newest"`, and pushes one
URL: the pathname with the single parameter `search` (its current value) when
the current URL has a non-empty `search`, the bare pathname otherwise. -/
theorem C7_clearFilters (r : FiltersRender) :
    (clearFilters r).draft =
      { make := "", bodyType := "", fuelType := "", transmission := ""
        priceRange := (some r.priceRange.min, some r.priceRange.max), sortBy := "newest" } ∧
    (clearFilters r).pushed =
      [match r.searchParams.get "search" with
        | some s => if s ≠ "" then Url.pathQuery r.pathname [("search", s)] else Url.path r.pathname
        | none => Url.path r.pathname] := by
  refine ⟨rfl, ?_⟩
  unfold clearFilters
  cases h : r.searchParams.get "search" with
  | none => simp [truthy, buildUrl]
  | some s =>
    by_cases hs : s = ""
    · simp [truthy, buildUrl, hs]
    · simp [truthy, buildUrl, hs, URLSearchParams.set]

/-- C8 (evaluation at the failing input): on the bare `/cars` URL with draft
sort `"newest"`, choosing `"priceAsc"` in the sort dropdown sets the draft sort
to `"priceAsc"` but the URL pushed by the timer callback is the bare pathname,
without a `sortBy` parameter: the `applyFilters` it runs is the one of the
render in which the sort was still `"newest"`.  For every render and every
chosen value the pushed URL is the one `applyFilters` builds from the drafts of
that render, so it does not depend on the value chosen. -/
theorem C8_sort_select_pushes_stale_sort :
    newestRender.draft.sortBy = "newest" ∧
    (onSortValueChange newestRender "priceAsc").draft.sortBy = "priceAsc" ∧
    (onSortValueChange newestRender "priceAsc").pushed = [Url.path "/cars"] ∧
    (Url.path "/cars").searchParams.get "sortBy" = none ∧
    ∀ (r : FiltersRender) (value : String),
      (onSortValueChange r value).pushed = [applyFiltersUrl r] :=
  ⟨by decide, by decide, by decide, by decide, fun _ _ => rfl⟩

/-! ## Claims on the page actions and the wishlist toggle -/

/-- C9: with the current page `p` (parsed from the URL) and `n` total pages,
Previous sets the requested page `currentPage` to `p - 1` when `p > 1` and
leaves it unchanged when `p ≤ 1`; Next sets it to `p + 1` when `p < n` and
leaves it unchanged when `p ≥ n`; selecting the page number `q` sets it to
`q`. -/
theorem C9_page_actions (p n q currentPage : Int) :
    onPreviousClick p currentPage = (if p > 1 then p - 1 else currentPage) ∧
    onNextClick p n currentPage = (if p < n then p + 1 else currentPage) ∧
    onPageLinkClick q currentPage = q :=
  ⟨rfl, rfl, rfl⟩

/-- C10: for every car and whether or not a toggle call is in flight,
`handleSaveCar` with a viewer who is not signed in makes no call to the remote
toggle, pushes exactly one route, `/sign-in`, and leaves the local
`isWishlisted` state unchanged. -/
theorem C10_unauthenticated_toggle (r : DetailsRender) (h : r.isSignedIn ≠ some true) :
    (handleSaveCar r).remoteCalls = [] ∧
    (handleSaveCar r).pushed = ["/sign-in"] ∧
    (handleSaveCar r).isWishlisted = r.isWishlisted := by
  unfold handleSaveCar
  rw [if_pos h]
  exact ⟨rfl, rfl, rfl⟩

/-- Witness of C10: a signed-out viewer of car `"car-1"` while a toggle call is
in flight. -/
theorem C10_unauthenticated_toggle_witness :
    (some false : Option Bool) ≠ some true ∧
    (handleSaveCar ⟨"car-1", some false, true, false⟩).remoteCalls = [] ∧
    (handleSaveCar ⟨"car-1", some false, true, false⟩).pushed = ["/sign-in"] ∧
    (handleSaveCar ⟨"car-1", some false, true, false⟩).isWishlisted = false :=
  ⟨by decide, C10_unauthenticated_toggle ⟨"car-1", some false, true, false⟩ (by decide)⟩

/-! ## Lemmas on the active link, the working hours and the page sync -/

theorem filter_isActiveLink_ellipsisSpec (page : Int) : ∀ (xs : List Int) (prev : Option Int),
    (ellipsisSpec page prev xs).filter PaginationItem.isActiveLink =
      (xs.filter (fun q => decide (q = page))).map (fun q => PaginationItem.link q true)
  | [], prev => by cases prev <;> simp [ellipsisSpec]
  | p :: rest, none => by
    have ih := filter_isActiveLink_ellipsisSpec page rest (some p)
    by_cases hp : p = page
    · simp [ellipsisSpec, List.filter_cons, PaginationItem.isActiveLink, hp, ← ih]
    · simp [ellipsisSpec, List.filter_cons, PaginationItem.isActiveLink, hp, ← ih]
  | p :: rest, some q => by
    have ih := filter_isActiveLink_ellipsisSpec page rest (some p)
    by_cases hp : p = page
    · subst hp
      by_cases hgap : p - q > 1
      · simp [ellipsisSpec, List.filter_cons, PaginationItem.isActiveLink, hgap, ← ih]
      · simp [ellipsisSpec, List.filter_cons, PaginationItem.isActiveLink, hgap, ← ih]
    · by_cases hgap : p - q > 1
      · simp [ellipsisSpec, List.filter_cons, PaginationItem.isActiveLink, hp, hgap, ← ih]
      · simp [ellipsisSpec, List.filter_cons, PaginationItem.isActiveLink, hp, hgap, ← ih]

theorem page_mem_uniquePageNumbers (pages page : Int) (hlo : 1 ≤ page) (hhi : page ≤ pages) :
    page ∈ uniquePageNumbers pages page := by
  rw [mem_uniquePageNumbers]
  by_cases h1 : page = 1
  · exact Or.inl h1
  · by_cases hn : page = pages
    · exact Or.inr (Or.inr ⟨by omega, hn⟩)
    · refine Or.inr (Or.inl ⟨?_, ?_⟩)
      · exact max_le (by omega) (by omega)
      · exact le_min (by omega) (by omega)

theorem indexOf_nonneg_of_mem (x : String) : ∀ xs : List String, x ∈ xs → 0 ≤ indexOf xs x
  | [], h => absurd h (List.not_mem_nil _)
  | y :: rest, h => by
    unfold indexOf
    by_cases hy : y = x
    · simp [hy]
    · have hmem : x ∈ rest := by
        rcases List.mem_cons.mp h with h' | h'
        · exact absurd h'.symm hy
        · exact h'
      have ih := indexOf_nonneg_of_mem x rest hmem
      simp only [hy, if_false]
      split <;> omega

theorem sorted_sortWorkingHours (entries : List WorkingHoursEntry) :
    (sortWorkingHours entries).Sorted
      (fun a b => indexOf days a.dayOfWeek ≤ indexOf days b.dayOfWeek) := by
  have htotal : IsTotal WorkingHoursEntry (fun a b => compareDays a b ≤ 0) :=
    ⟨fun a b => by unfold compareDays; omega⟩
  have htrans : IsTrans WorkingHoursEntry (fun a b => compareDays a b ≤ 0) :=
    ⟨fun a b c => by unfold compareDays; omega⟩
  have hsorted := @List.sorted_insertionSort _ (fun a b => compareDays a b ≤ 0) _ htotal htrans
    entries
  exact List.Pairwise.imp (fun {a b} h => by unfold compareDays at h; omega) hsorted

theorem filter_ne_replaceFirst (k v : String) : ∀ ps : List (String × String),
    (replaceFirst k v ps).filter (fun p => decide (p.1 ≠ k)) =
      ps.filter (fun p => decide (p.1 ≠ k))
  | [] => rfl
  | (a, b) :: rest => by
    by_cases h : a = k
    · subst h
      simp [replaceFirst, List.filter_cons]
    · simpa [replaceFirst, List.filter_cons, h] using filter_ne_replaceFirst k v rest

theorem filter_ne_set (ps : URLSearchParams) (k v : String) :
    (URLSearchParams.set ps k v).filter (fun p => decide (p.1 ≠ k)) =
      ps.filter (fun p => decide (p.1 ≠ k)) := by
  unfold URLSearchParams.set
  split
  · exact filter_ne_replaceFirst k v ps
  · simp [List.filter_append, List.filter_cons]

/-! ## Claims on the wishlist outcome, the working hours and the listing view -/

/-- C11: once the effect triggered by a toggle outcome has run, the local
`isWishlisted` state is the server's `saved` boolean when the outcome is a
response with `success`, whatever the state was before, and is the value it had
before the call when the outcome is a response without `success` or an
error. -/
theorem C11_toggle_outcome_state (isWishlisted : Bool) (res : ToggleResponse) (err : String) :
    (processToggleOutcome isWishlisted (ToggleOutcome.result res)).1 =
      (if res.success then res.saved else isWishlisted) ∧
    (processToggleOutcome isWishlisted (ToggleOutcome.error err)).1 = isWishlisted := by
  refine ⟨?_, rfl⟩
  cases hs : res.success <;> simp [processToggleOutcome, toggleResultEffect, hs]

/-- C12: for a signed-in viewer, `handleSaveCar` invoked while a toggle call is
in flight (`savingCar`) makes no remote call and changes nothing (no toast, no
navigation, `isWishlisted` kept); invoked when no call is in flight it makes
exactly one remote call, with `car.id`. -/
theorem C12_in_flight_guard (r : DetailsRender) (h : r.isSignedIn = some true) :
    (handleSaveCar r).remoteCalls = (if r.savingCar then [] else [r.carId]) ∧
    (handleSaveCar r).toasts = [] ∧
    (handleSaveCar r).pushed = [] ∧
    (handleSaveCar r).isWishlisted = r.isWishlisted := by
  unfold handleSaveCar
  cases hs : r.savingCar <;> simp [h]

/-- Witness of C12: a signed-in viewer of car `"car-1"` with no call in
flight. -/
theorem C12_in_flight_guard_witness :
    (some true : Option Bool) = some true ∧
    (handleSaveCar ⟨"car-1", some true, false, false⟩).remoteCalls =
      (if false then [] else ["car-1"]) ∧
    (handleSaveCar ⟨"car-1", some true, false, false⟩).toasts = [] ∧
    (handleSaveCar ⟨"car-1", some true, false, false⟩).pushed = [] ∧
    (handleSaveCar ⟨"car-1", some true, false, false⟩).isWishlisted = false :=
  ⟨rfl, C12_in_flight_guard ⟨"car-1", some true, false, false⟩ rfl⟩

/-- C13: for every supplied list of working-hours entries whose `dayOfWeek`
values are weekdays, the rendered rows are the rows of a permutation of the
input, ordered by the canonical position of the weekday
(MONDAY < TUESDAY < … < SUNDAY); entries for SUNDAY, MONDAY, WEDNESDAY render as
Monday, Wednesday, Sunday. -/
theorem C13_working_hours_order (entries : List WorkingHoursEntry)
    (h : ∀ e ∈ entries, e.dayOfWeek ∈ days) :
    workingHoursRows (some entries) = (sortWorkingHours entries).map renderEntry ∧
    (sortWorkingHours entries).Perm entries ∧
    (sortWorkingHours entries).Sorted
      (fun a b => indexOf days a.dayOfWeek ≤ indexOf days b.dayOfWeek) ∧
    (∀ e ∈ sortWorkingHours entries, 0 ≤ indexOf days e.dayOfWeek) ∧
    (workingHoursRows (some sampleWorkingHours)).map HoursRow.label =
      ["Monday", "Wednesday", "Sunday"] := by
  refine ⟨rfl, List.perm_insertionSort _ entries, sorted_sortWorkingHours entries, ?_, by decide⟩
  intro e he
  have hmem : e ∈ entries := (List.perm_insertionSort _ entries).mem_iff.mp he
  exact indexOf_nonneg_of_mem _ days (h e hmem)

/-- Witness of C13 on the entries SUNDAY, MONDAY, WEDNESDAY. -/
theorem C13_working_hours_order_witness :
    (∀ e ∈ sampleWorkingHours, e.dayOfWeek ∈ days) ∧
    workingHoursRows (some sampleWorkingHours) =
      (sortWorkingHours sampleWorkingHours).map renderEntry ∧
    (sortWorkingHours sampleWorkingHours).Perm sampleWorkingHours ∧
    (sortWorkingHours sampleWorkingHours).Sorted
      (fun a b => indexOf days a.dayOfWeek ≤ indexOf days b.dayOfWeek) ∧
    (∀ e ∈ sortWorkingHours sampleWorkingHours, 0 ≤ indexOf days e.dayOfWeek) ∧
    (workingHoursRows (some sampleWorkingHours)).map HoursRow.label =
      ["Monday", "Wednesday", "Sunday"] :=
  ⟨by decide, C13_working_hours_order sampleWorkingHours (by decide)⟩

/-- C14 (evaluation at the failing input): with the search settled
(`loading` false, no hook error) on the failure response
`{success: false, message}`, which carries no `data`, `CarListings` returns the
empty placeholder (`null`), not the error alert; whatever `loading`, `success`,
`pagination` and `error` are, a result without `data` never reaches the error
branch. -/
theorem C14_failure_without_data_renders_nothing :
    renderListing false (some ⟨false, none, none⟩) none = ListingView.emptyPlaceholder ∧
    ∀ (loading success : Bool) (pagination : Option Pagination) (error : Option String),
      renderListing loading (some ⟨success, none, pagination⟩) error =
        ListingView.emptyPlaceholder := by
  refine ⟨by decide, ?_⟩
  intro loading success pagination error
  simp [renderListing]

/-- C15: when no working-hours schedule is supplied the card has exactly seven
rows, Monday to Sunday in that order, Monday to Friday showing `9:00 - 18:00`,
Saturday `10:00 - 16:00` and Sunday `Closed`. -/
theorem C15_default_working_hours :
    workingHoursRows none =
      [⟨"Monday", "Monday", "9:00 - 18:00"⟩, ⟨"Tuesday", "Tuesday", "9:00 - 18:00"⟩,
        ⟨"Wednesday", "Wednesday", "9:00 - 18:00"⟩, ⟨"Thursday", "Thursday", "9:00 - 18:00"⟩,
        ⟨"Friday", "Friday", "9:00 - 18:00"⟩, ⟨"Saturday", "Saturday", "10:00 - 16:00"⟩,
        ⟨"Sunday", "Sunday", "Closed"⟩] ∧
    (workingHoursRows none).length = 7 := by
  decide

/-! ## Claims on the search state, the EMI estimate and the page sync -/

/-- C16: for every two URLs whose queries differ (in the page, as page 1 and
page 2 do, or in any other field), when the fetch effect issues the search for
the first and then, before any reply, the search for the second, the search
state ends as the success of the second query holding its result in both
arrival orders of the two replies; and for all queries, a reply to a query
other than the newer one changes neither the state that is loading the newer
query nor the state a reply to the newer query has set. -/
theorem C16_stale_response_discard {R : Type} (s : FetchState ListingQuery R)
    (sp1 sp2 : URLSearchParams) (r1 r2 : R)
    (hne : listingQuery sp1 ≠ listingQuery sp2) :
    (((fetchEffect (fetchEffect s sp1) sp2).receive (listingQuery sp1)
        (FetchResponse.ok r1)).receive (listingQuery sp2) (FetchResponse.ok r2) =
      FetchState.success (listingQuery sp2) r2) ∧
    (((fetchEffect (fetchEffect s sp1) sp2).receive (listingQuery sp2)
        (FetchResponse.ok r2)).receive (listingQuery sp1) (FetchResponse.ok r1) =
      FetchState.success (listingQuery sp2) r2) ∧
    (∀ (newer stale : ListingQuery) (reply : FetchResponse R), stale ≠ newer →
      (FetchState.loading newer : FetchState ListingQuery R).receive stale reply =
        FetchState.loading newer) ∧
    (∀ (newer stale : ListingQuery) (result : R) (reply : FetchResponse R),
      (FetchState.success newer result).receive stale reply =
        FetchState.success newer result) ∧
    (∀ (newer stale : ListingQuery) (message : String) (reply : FetchResponse R),
      (FetchState.error newer message : FetchState ListingQuery R).receive stale reply =
        FetchState.error newer message) ∧
    (∀ spA spB : URLSearchParams, (listingQuery spA).page = some 1 →
      (listingQuery spB).page = some 2 → listingQuery spA ≠ listingQuery spB) := by
  have hne' : listingQuery sp2 ≠ listingQuery sp1 := fun heq => hne heq.symm
  refine ⟨?_, ?_, ?_, ?_, ?_, ?_⟩
  · simp [fetchEffect, FetchState.issue, FetchState.receive, hne']
  · simp [fetchEffect, FetchState.issue, FetchState.receive]
  · intro newer stale reply hstale
    have hstale' : newer ≠ stale := fun heq => hstale heq.symm
    simp [FetchState.receive, hstale']
  · intro newer stale result reply
    simp [FetchState.receive]
  · intro newer stale message reply
    simp [FetchState.receive]
  · intro spA spB hA hB heq
    rw [heq, hB] at hA
    cases hA

/-- Witness of C16: from the idle state, the URLs `/cars?make=Toyota` and
`/cars?make=Honda` (both on page 1), and the URLs `/cars` (page 1) and
`/cars?page=2`, with car-id lists as results. -/
theorem C16_stale_response_discard_witness :
    listingQuery [("make", "Toyota")] ≠ listingQuery [("make", "Honda")] ∧
    (((fetchEffect (fetchEffect (FetchState.idle : FetchState ListingQuery (List String))
          [("make", "Toyota")]) [("make", "Honda")]).receive
        (listingQuery [("make", "Toyota")]) (FetchResponse.ok ["a"])).receive
        (listingQuery [("make", "Honda")]) (FetchResponse.ok ["b"]) =
      FetchState.success (listingQuery [("make", "Honda")]) ["b"]) ∧
    (((fetchEffect (fetchEffect (FetchState.idle : FetchState ListingQuery (List String))
          [("make", "Toyota")]) [("make", "Honda")]).receive
        (listingQuery [("make", "Honda")]) (FetchResponse.ok ["b"])).receive
        (listingQuery [("make", "Toyota")]) (FetchResponse.ok ["a"]) =
      FetchState.success (listingQuery [("make", "Honda")]) ["b"]) ∧
    listingQuery [] ≠ listingQuery [("page", "2")] ∧
    (((fetchEffect (fetchEffect (FetchState.idle : FetchState ListingQuery (List String))
          []) [("page", "2")]).receive
        (listingQuery [("page", "2")]) (FetchResponse.ok ["b"])).receive
        (listingQuery []) (FetchResponse.ok ["a"]) =
      FetchState.success (listingQuery [("page", "2")]) ["b"]) :=
  ⟨by decide,
    (C16_stale_response_discard FetchState.idle [("make", "Toyota")] [("make", "Honda")]
      ["a"] ["b"] (by decide)).1,
    (C16_stale_response_discard FetchState.idle [("make", "Toyota")] [("make", "Honda")]
      ["a"] ["b"] (by decide)).2.1,
    by decide,
    (C16_stale_response_discard FetchState.idle [] [("page", "2")]
      ["a"] ["b"] (by decide)).2.1⟩

/-- C17 (evaluation at the failing input): for a car priced 60000 the card
shows `60000 / 60 = 1000` as the estimated monthly payment, while the 60-month
instalment at 4.5% a year with no down payment, which the footnote of the card
announces, is above 1118; the amount shown is the price divided by 60 for
every price. -/
theorem C17_estimate_ignores_interest :
    estimatedMonthlyPayment 60000 = 1000 ∧
    1118 < amortisedPayment 60000 (45 / 1000 / 12) 60 ∧
    estimatedMonthlyPayment 60000 ≠ amortisedPayment 60000 (45 / 1000 / 12) 60 ∧
    ∀ price : ℚ, estimatedMonthlyPayment price = price / 60 := by
  have hshown : estimatedMonthlyPayment 60000 = 1000 := by
    norm_num [estimatedMonthlyPayment]
  have hdue : 1118 < amortisedPayment 60000 (45 / 1000 / 12) 60 := by
    norm_num [amortisedPayment]
  refine ⟨hshown, hdue, ?_, fun _ => rfl⟩
  rw [hshown]
  intro heq
  rw [← heq] at hdue
  norm_num at hdue

/-- C18 (as stated, refuted): at `totalPages = 1`, `page = 1` the current
page is in the visible page list, but the pagination block is not rendered
(`pagination.pages > 1` fails), so no page link, active or not, reaches the
page. -/
theorem C18_counterexample :
    (1 : Int) ≤ 1 ∧ (1 : Int) ∈ uniquePageNumbers 1 1 ∧
    renderedPaginationItems 1 1 = [] ∧
    (renderedPaginationItems 1 1).filter PaginationItem.isActiveLink = [] := by
  decide

/-- C18 (amended): for `totalPages ≥ 1` and `1 ≤ page ≤ totalPages` the current
page is a member of the visible page list; when `totalPages ≥ 2` the rendered
pagination holds exactly one page link marked active, the link of the current
page, and when `totalPages = 1` the pagination is not rendered and there is no
page link at all. -/
theorem C18_current_page_active (totalPages page : Int) (_h : 1 ≤ totalPages)
    (hlo : 1 ≤ page) (hhi : page ≤ totalPages) :
    page ∈ uniquePageNumbers totalPages page ∧
    (renderedPaginationItems totalPages page).filter PaginationItem.isActiveLink =
      (if totalPages > 1 then [PaginationItem.link page true] else []) := by
  have hmem := page_mem_uniquePageNumbers totalPages page hlo hhi
  refine ⟨hmem, ?_⟩
  unfold renderedPaginationItems
  by_cases hp : totalPages > 1
  · rw [if_pos hp, if_pos hp, paginationItems_eq_ellipsisSpec, filter_isActiveLink_ellipsisSpec,
      List.filter_eq, List.count_eq_one_of_mem (nodup_uniquePageNumbers totalPages page) hmem]
    rfl
  · rw [if_neg hp, if_neg hp]
    rfl

/-- Witness of C18 at `totalPages = 10`, `page = 5`. -/
theorem C18_current_page_active_witness :
    (1 : Int) ≤ 10 ∧ (1 : Int) ≤ 5 ∧ (5 : Int) ≤ 10 ∧
    (5 : Int) ∈ uniquePageNumbers 10 5 ∧
    (renderedPaginationItems 10 5).filter PaginationItem.isActiveLink =
      (if (10 : Int) > 1 then [PaginationItem.link 5 true] else []) :=
  ⟨by decide, by decide, by decide,
    C18_current_page_active 10 5 (by decide) (by decide) (by decide)⟩

/-- C19: for every `currentPage` and every current query, the page-sync
effect pushes one relative URL, the current query with `page` set to
`currentPage`, whenever `currentPage` differs from the page parsed from the URL
(a `NaN` page differs from every `currentPage`), and pushes nothing when they
are equal; the pushed query has `page = currentPage` and keeps every other pair
of the current query, in order.  As `currentPage` starts at 1 whatever the URL,
the effect of the first render pushes the query with `page=1` on every URL
whose page does not parse to 1, as on `?make=Toyota&page=3`, and nothing on a
URL on page 1. -/
theorem C19_page_sync (currentPage : Int) (searchParams : URLSearchParams) :
    pageSyncEffect currentPage searchParams =
      (if some currentPage ≠ (listingQuery searchParams).page then
        [searchParams.set "page" (numberToString (some currentPage))]
      else []) ∧
    (searchParams.set "page" (numberToString (some currentPage))).get "page" =
      some (numberToString (some currentPage)) ∧
    (searchParams.set "page" (numberToString (some currentPage))).filter
        (fun p => decide (p.1 ≠ "page")) =
      searchParams.filter (fun p => decide (p.1 ≠ "page")) ∧
    initialCurrentPage = 1 ∧
    pageSyncEffect initialCurrentPage searchParams =
      (if (listingQuery searchParams).page = some 1 then []
      else [searchParams.set "page" "1"]) ∧
    pageSyncEffect initialCurrentPage [("make", "Toyota"), ("page", "3")] =
      [[("make", "Toyota"), ("page", "1")]] ∧
    pageSyncEffect initialCurrentPage [("make", "Toyota"), ("page", "abc")] =
      [[("make", "Toyota"), ("page", "1")]] ∧
    pageSyncEffect 2 [("make", "Toyota")] = [[("make", "Toyota"), ("page", "2")]] ∧
    pageSyncEffect 1 [("make", "Toyota")] = [] := by
  refine ⟨rfl, ?_, filter_ne_set searchParams "page" _, rfl, ?_, by decide, by decide,
    by decide, by decide⟩
  · rw [get_set]
    simp
  · have hone : numberToString (some initialCurrentPage) = "1" := by decide
    unfold pageSyncEffect
    by_cases hpage : (listingQuery searchParams).page = some 1
    · have hsame : ¬ (some initialCurrentPage ≠ (listingQuery searchParams).page) := by
        rw [hpage]
        exact fun hcon => hcon rfl
      rw [if_neg hsame, if_pos hpage]
    · have hdiff : some initialCurrentPage ≠ (listingQuery searchParams).page :=
        fun heq => hpage heq.symm
      rw [if_pos hdiff, if_neg hpage, hone]

end Vehiql
